import Mathlib

/-!
Shallow embedding of the core of `dollar_investment_screener_web.py`:
the gap/fair-value calculator (`calculate_dollar_gap_ratio`), the trend
classifier (`analyze_dxy_trend`), the recommendation engine
(`get_investment_recommendation`) and the investment sizing calculation
(`calculate_investment_details` plus the module-level scenario loop).

Modelling conventions:
- Python floats are modelled as rationals (ℚ); the constants involved
  (0.75, 0.5, 0.25, percentages over small integers) make the comparisons
  in the source exact, so ℚ is faithful for every property stated here.
- A pandas series' Close column is modelled as `List ℚ` (oldest first);
  `tail(n)` is `tailN`, `.min()`/`.max()`/`.mean()` are `listMin`,
  `listMax`, `listMean`, `.iloc[-1]` is `getLast?.getD 0` (the default is
  never used on the nonempty lists the code reaches).
- Python `None` is `Option.none`; Python truthiness of a numeric value
  (`if current_dxy:`) is `some c` with `c ≠ 0`.
- Python runtime errors that the code can raise are modelled with
  `Except PyError`: `ZeroDivisionError` (tagged with the division site)
  and the `TypeError` raised by string-indexing a tuple.
- Field names ending in `_ratio` in the source are shortened
  (`current_gap` for `current_gap_ratio`, `mid_gap` for `mid_gap_ratio`,
  and `calculate_dollar_gap` for `calculate_dollar_gap_ratio`);
  everything else keeps the source's names.
-/

/-- Division sites in the source that can raise `ZeroDivisionError`. -/
inductive DivSite where
  | rateVsMid        -- line 57: (current_rate - rate_mid) / rate_mid
  | dxyVsMid         -- line 69: (current_dxy - dxy_mid) / dxy_mid
  | midGap           -- line 82: dxy_mid / rate_mid
  | appropriateRate  -- line 85: current_dxy / mid_gap_ratio
  | rateDiffPct      -- line 173: rate_diff / appropriate_rate
  | investRate       -- lines 209/215: amount / current_rate
  | scenarioRate     -- line 472: net_investment / new_rate
  deriving DecidableEq, Repr

/-- Python runtime errors the modelled code can raise. -/
inductive PyError where
  | zeroDivision (site : DivSite)
  | typeError
  deriving DecidableEq, Repr

/-- Last `n` elements of a list: `pandas.DataFrame.tail(n)`. -/
def tailN (l : List ℚ) (n : Nat) : List ℚ := l.drop (l.length - n)

/-- Minimum of a Close column (`Series.min`); 0 on the empty list, which the
code never reaches under a positive window. -/
def listMin : List ℚ → ℚ
  | [] => 0
  | x :: xs => xs.foldl min x

/-- Maximum of a Close column (`Series.max`); 0 on the empty list. -/
def listMax : List ℚ → ℚ
  | [] => 0
  | x :: xs => xs.foldl max x

/-- Mean of a Close column (`Series.mean`). -/
def listMean (l : List ℚ) : ℚ := l.sum / l.length

/-- The `rate_stats` dictionary of `calculate_dollar_gap_ratio` (lines 93-98). -/
structure RateStats where
  current : ℚ
  mid : ℚ
  min : ℚ
  max : ℚ
  deriving DecidableEq, Repr

/-- The `dxy_stats` dictionary (lines 99-104); `current` is the raw
`current_dxy` argument, which may be Python `None`. -/
structure DxyStats where
  current : Option ℚ
  mid : ℚ
  min : ℚ
  max : ℚ
  deriving DecidableEq, Repr

/-- The result dictionary of `calculate_dollar_gap_ratio` (lines 87-105).
`current_gap` models `current_gap_ratio`, `mid_gap` models `mid_gap_ratio`,
`appropriate_rate` is the fair-value rate. -/
structure GapData where
  rate_vs_mid : ℚ
  dxy_vs_mid : Option ℚ
  current_gap : Option ℚ
  mid_gap : Option ℚ
  appropriate_rate : Option ℚ
  rate_stats : RateStats
  dxy_stats : Option DxyStats
  deriving DecidableEq, Repr

/-- What `calculate_dollar_gap_ratio` actually returns: either the literal
`None, None, None, None, None` 5-tuple of line 48 (which is NOT Python
`None`: it is a truthy tuple) or the result dictionary. -/
inductive CalcResult where
  | noneTuple
  | gap (g : GapData)
  deriving DecidableEq, Repr

/-- Window statistics of lines 51-54 and 63-66: (min, max, mid) of the last
`w` observations, with mid = (min + max) / 2. -/
def windowStats (l : List ℚ) (w : Nat) : ℚ × ℚ × ℚ :=
  let recent := tailN l w
  let mn := listMin recent
  let mx := listMax recent
  (mn, mx, (mn + mx) / 2)

/-- Lines 60-69 and 99-104: the DXY window statistics and `dxy_vs_mid`.
Returns `(dxy_stats, dxy_vs_mid)`; the division of line 69 is guarded by
Python truthiness of `current_dxy` only, so `dxy_mid = 0` raises. -/
def dxyPart (current_dxy : Option ℚ) (dxy_hist : Option (List ℚ))
    (period_days : Nat) : Except PyError (Option DxyStats × Option ℚ) :=
  match dxy_hist with
  | none => .ok (none, none)
  | some dh =>
    if dh.length < period_days then .ok (none, none)
    else
      let s := windowStats dh period_days
      let stats : DxyStats :=
        { current := current_dxy, mid := s.2.2, min := s.1, max := s.2.1 }
      match current_dxy with
      | none => .ok (some stats, none)
      | some cd =>
        if cd = 0 then .ok (some stats, none)
        else if s.2.2 = 0 then .error (.zeroDivision .dxyVsMid)
        else .ok (some stats, some (((cd - s.2.2) / s.2.2) * 100))

/-- Lines 72-85: `current_gap_ratio`, `mid_gap_ratio`, `appropriate_rate`.
The guard `if current_dxy and current_rate > 0` is Python truthiness;
`if dxy_mid` likewise. The divisions of lines 82 and 85 raise on a zero
divisor (line 78 cannot: `current_rate > 0` holds in its branch). -/
def gapPart (current_rate rate_mid : ℚ) (current_dxy : Option ℚ)
    (dxy_mid : Option ℚ) : Except PyError (Option ℚ × Option ℚ × Option ℚ) :=
  match current_dxy with
  | none => .ok (none, none, none)
  | some cd =>
    if cd ≠ 0 ∧ 0 < current_rate then
      let cg := (cd / current_rate) * 100
      match dxy_mid with
      | none => .ok (some cg, none, none)
      | some dm =>
        if dm = 0 then .ok (some cg, none, none)
        else if rate_mid = 0 then .error (.zeroDivision .midGap)
        else
          let mg := (dm / rate_mid) * 100
          if mg = 0 then .error (.zeroDivision .appropriateRate)
          else .ok (some cg, some mg, some ((cd / mg) * 100))
    else .ok (none, none, none)

/-- `calculate_dollar_gap_ratio` (lines 40-105). The early exit of lines
47-48 returns the 5-tuple of `None`s; otherwise the result dictionary is
built. The division of line 57 raises when `rate_mid = 0`. -/
def calculate_dollar_gap (current_rate : ℚ) (rate_hist : Option (List ℚ))
    (current_dxy : Option ℚ) (dxy_hist : Option (List ℚ))
    (period_days : Nat) : Except PyError CalcResult :=
  match rate_hist with
  | none => .ok .noneTuple
  | some rh =>
    if rh.length < period_days then .ok .noneTuple
    else
      let s := windowStats rh period_days
      if s.2.2 = 0 then .error (.zeroDivision .rateVsMid)
      else
        match dxyPart current_dxy dxy_hist period_days with
        | .error e => .error e
        | .ok (stats, dvm) =>
          match gapPart current_rate s.2.2 current_dxy
              (Option.map DxyStats.mid stats) with
          | .error e => .error e
          | .ok (cg, mg, ar) =>
            .ok (.gap
              { rate_vs_mid := ((current_rate - s.2.2) / s.2.2) * 100
                dxy_vs_mid := dvm
                current_gap := cg
                mid_gap := mg
                appropriate_rate := ar
                rate_stats :=
                  { current := current_rate, mid := s.2.2
                    min := s.1, max := s.2.1 }
                dxy_stats := stats })

/-- Trend labels of `analyze_dxy_trend`. -/
inductive Trend where
  | up
  | down
  deriving DecidableEq, Repr

/-- `analyze_dxy_trend` (lines 108-123): `(trend, short_trend)`, absent when
fewer than 20 observations. Both tests are strict greater-than. -/
def analyze_dxy_trend (dxy_hist : Option (List ℚ)) : Option (Trend × Trend) :=
  match dxy_hist with
  | none => none
  | some dh =>
    if dh.length < 20 then none
    else
      let recent := tailN dh 20
      let current := (recent.getLast?).getD 0
      let ma20 := listMean recent
      let ma5 := listMean (tailN recent 5)
      some ((if ma20 < current then .up else .down),
            (if ma5 < current then .up else .down))

/-- The six decision labels of lines 181-198 (and line 135):
insufficientData = the insufficient-data label, strongBuy / buyConsider /
hold / caution / avoid for the five graded labels. -/
inductive Decision where
  | insufficientData
  | strongBuy
  | buyConsider
  | hold
  | caution
  | avoid
  deriving DecidableEq, Repr

/-- The value `get_investment_recommendation` returns (line 200): the
decision label, the ordered evidence list (modelled as pairs of condition
number and pass flag; the display strings are not modelled) and
`conditions_met`. `total_conditions` is a local variable of the source and
is NOT part of the returned tuple; it equals the evidence list's length. -/
structure Recommendation where
  decision : Decision
  recommendations : List (Nat × Bool)
  conditions_met : Nat
  deriving DecidableEq, Repr

/-- The argument `get_investment_recommendation` can receive: Python `None`,
the 5-tuple of `None`s of line 48, or the result dictionary. -/
inductive GapArg where
  | pynone
  | pytuple
  | pydict (g : GapData)
  deriving DecidableEq, Repr

/-- How the webapp (line 299) passes `calculate_dollar_gap_ratio`'s result
to `get_investment_recommendation`. -/
def toGapArg : CalcResult → GapArg
  | .noneTuple => .pytuple
  | .gap g => .pydict g

/-- Final decision block, lines 181-198: the label as a function of
`(conditions_met, total_conditions)`, tested in the source's order. The
float constants 0.75, 0.5, 0.25 are exactly representable, so ℚ is exact. -/
def decideLabel (conditions_met total_conditions : Nat) : Decision :=
  if total_conditions = 0 then .insufficientData
  else if conditions_met = total_conditions then .strongBuy
  else if (total_conditions : ℚ) * (3 / 4) ≤ (conditions_met : ℚ) then .buyConsider
  else if (total_conditions : ℚ) * (1 / 2) ≤ (conditions_met : ℚ) then .hold
  else if (total_conditions : ℚ) * (1 / 4) ≤ (conditions_met : ℚ) then .caution
  else .avoid

/-- Modelled from the spec (Section 4.3 decision table), for refinement
comparison with `decideLabel`: thresholds phrased against the ratio
`conditions_met / conditions_total`, as the spec words them. -/
def specDecision (conditions_met total_conditions : Nat) : Decision :=
  if total_conditions = 0 then .insufficientData
  else if conditions_met = total_conditions then .strongBuy
  else if (3 / 4 : ℚ) ≤ (conditions_met : ℚ) / (total_conditions : ℚ) then .buyConsider
  else if (1 / 2 : ℚ) ≤ (conditions_met : ℚ) / (total_conditions : ℚ) then .hold
  else if (1 / 4 : ℚ) ≤ (conditions_met : ℚ) / (total_conditions : ℚ) then .caution
  else .avoid

/-- Condition 1 block, lines 141-148: `(evidence, met, total)` contribution.
`rate_vs_mid` is a plain number in every dictionary the calculator builds,
so the source's `is not None` check is always true here. -/
def cond1Eval (g : GapData) : List (Nat × Bool) × Nat × Nat :=
  if GapData.rate_vs_mid g < 0 then ([(1, true)], 1, 1) else ([(1, false)], 0, 1)

/-- Condition 2 block, lines 150-157. -/
def cond2Eval (g : GapData) : List (Nat × Bool) × Nat × Nat :=
  match GapData.dxy_vs_mid g with
  | none => ([], 0, 0)
  | some d => if d < 0 then ([(2, true)], 1, 1) else ([(2, false)], 0, 1)

/-- Condition 3 block, lines 159-167: strict `gap_diff > 0`. -/
def cond3Eval (g : GapData) : List (Nat × Bool) × Nat × Nat :=
  match GapData.current_gap g, GapData.mid_gap g with
  | some c, some m =>
    if 0 < c - m then ([(3, true)], 1, 1) else ([(3, false)], 0, 1)
  | _, _ => ([], 0, 0)

/-- Condition 4 block, lines 169-178. Line 173 divides by
`appropriate_rate`, so a zero fair value raises; `rate_stats.current` is a
plain number in every dictionary the calculator builds, so the source's
second `is not None` check is always true here. -/
def cond4Eval (g : GapData) : Except PyError (List (Nat × Bool) × Nat × Nat) :=
  match GapData.appropriate_rate g with
  | none => .ok ([], 0, 0)
  | some ar =>
    if ar = 0 then .error (.zeroDivision .rateDiffPct)
    else if (GapData.rate_stats g).current - ar < 0 then .ok ([(4, true)], 1, 1)
    else .ok ([(4, false)], 0, 1)

/-- `get_investment_recommendation` (lines 126-200). Passing the 5-tuple of
line 48 is not `None`, so line 134 does not fire and line 142 string-indexes
a tuple: `TypeError`. Explanation strings are not modelled. -/
def get_investment_recommendation : GapArg → Except PyError Recommendation
  | .pynone => .ok ⟨.insufficientData, [], 0⟩
  | .pytuple => .error .typeError
  | .pydict g =>
    match cond4Eval g with
    | .error e => .error e
    | .ok c4 =>
      let c1 := cond1Eval g
      let c2 := cond2Eval g
      let c3 := cond3Eval g
      let met := c1.2.1 + c2.2.1 + c3.2.1 + c4.2.1
      let total := c1.2.2 + c2.2.2 + c3.2.2 + c4.2.2
      .ok ⟨decideLabel met total, c1.1 ++ c2.1 ++ c3.1 ++ c4.1, met⟩

/-- Lines 291-299 of the webapp: feed the calculator's result straight into
the recommendation engine. -/
def analysis_pipeline (current_rate : ℚ) (rate_hist : Option (List ℚ))
    (current_dxy : Option ℚ) (dxy_hist : Option (List ℚ))
    (period_days : Nat) : Except PyError Recommendation :=
  match calculate_dollar_gap current_rate rate_hist current_dxy dxy_hist period_days with
  | .error e => .error e
  | .ok res => get_investment_recommendation (toGapArg res)

/-- The result dictionary of `calculate_investment_details` (lines 217-225). -/
structure InvestmentDetails where
  investment_amount : ℚ
  current_rate : ℚ
  dollar_amount : ℚ
  fee : ℚ
  net_investment : ℚ
  net_dollar : ℚ
  fee_rate : ℚ
  deriving DecidableEq, Repr

/-- `calculate_investment_details` (lines 203-225). The divisions of lines
209 and 215 raise when `current_rate = 0`; `fee_rate` is stored ×100. -/
def calculate_investment_details (investment_amount : ℚ)
    (current_rate : Option ℚ) : Except PyError (Option InvestmentDetails) :=
  match current_rate with
  | none => .ok none
  | some rate =>
    if rate = 0 then .error (.zeroDivision .investRate)
    else
      let dollar_amount := investment_amount / rate
      let fee_rate : ℚ := 2 / 1000
      let fee := investment_amount * fee_rate
      let net_investment := investment_amount - fee
      let net_dollar := net_investment / rate
      .ok (some
        { investment_amount := investment_amount
          current_rate := rate
          dollar_amount := dollar_amount
          fee := fee
          net_investment := net_investment
          net_dollar := net_dollar
          fee_rate := fee_rate * 100 })

/-- One row of the scenario table (lines 470-480); display strings are not
modelled, the numeric values are. -/
structure ScenarioRow where
  change_pct : Int
  new_rate : ℚ
  new_dollar : ℚ
  profit_loss : ℚ
  deriving DecidableEq, Repr

/-- The fixed perturbation list of line 467. -/
def scenarios : List Int := [-5, -3, -1, 0, 1, 3, 5]

/-- One iteration of the scenario loop (lines 470-473): the division of
line 472 raises when the projected rate is zero. -/
def scenarioRow (current_rate : ℚ) (d : InvestmentDetails)
    (change_pct : Int) : Except PyError ScenarioRow :=
  let new_rate := current_rate * (1 + (change_pct : ℚ) / 100)
  if new_rate = 0 then .error (.zeroDivision .scenarioRate)
  else
    let new_dollar := d.net_investment / new_rate
    .ok ⟨change_pct, new_rate, new_dollar,
         (new_dollar - d.net_dollar) * current_rate⟩

/-- The scenario loop body over a list of perturbations, in order. -/
def scenarioRows (current_rate : ℚ) (d : InvestmentDetails) :
    List Int → Except PyError (List ScenarioRow)
  | [] => .ok []
  | p :: ps =>
    match scenarioRow current_rate d p with
    | .error e => .error e
    | .ok row =>
      match scenarioRows current_rate d ps with
      | .error e => .error e
      | .ok rows => .ok (row :: rows)

/-- The scenario table of lines 467-480. -/
def scenario_table (current_rate : ℚ) (d : InvestmentDetails) :
    Except PyError (List ScenarioRow) :=
  scenarioRows current_rate d scenarios

/-! ### Helper lemmas about windows and extrema -/

lemma tailN_length (l : List ℚ) (w : Nat) (h : w ≤ l.length) :
    (tailN l w).length = w := by
  simp [tailN]; omega

lemma tailN_subset (l : List ℚ) (w : Nat) : tailN l w ⊆ l :=
  List.drop_subset _ _

lemma tailN_ne_nil (l : List ℚ) (w : Nat) (hw : 0 < w) (h : w ≤ l.length) :
    tailN l w ≠ [] := by
  intro hnil
  have := tailN_length l w h
  rw [hnil] at this
  simp at this
  omega

lemma foldl_min_pos : ∀ (xs : List ℚ) (a : ℚ), 0 < a → (∀ x ∈ xs, 0 < x) →
    0 < xs.foldl min a
  | [], _, ha, _ => ha
  | x :: xs, a, ha, hxs =>
    foldl_min_pos xs (min a x) (lt_min ha (hxs x (List.mem_cons_self x xs)))
      (fun y hy => hxs y (List.mem_cons_of_mem _ hy))

lemma foldl_max_pos : ∀ (xs : List ℚ) (a : ℚ), 0 < a → 0 < xs.foldl max a
  | [], _, ha => ha
  | _ :: xs, a, ha => foldl_max_pos xs (max a _) (lt_max_of_lt_left ha)

lemma listMin_pos (l : List ℚ) (hne : l ≠ []) (hpos : ∀ x ∈ l, 0 < x) :
    0 < listMin l := by
  match l, hne with
  | x :: xs, _ =>
    exact foldl_min_pos xs x (hpos x (List.mem_cons_self x xs))
      (fun y hy => hpos y (List.mem_cons_of_mem _ hy))

lemma listMax_pos (l : List ℚ) (hne : l ≠ []) (hpos : ∀ x ∈ l, 0 < x) :
    0 < listMax l := by
  match l, hne with
  | x :: xs, _ =>
    exact foldl_max_pos xs x (hpos x (List.mem_cons_self x xs))

lemma windowStats_mid_pos (l : List ℚ) (w : Nat) (hw : 0 < w)
    (hlen : w ≤ l.length) (hpos : ∀ x ∈ l, 0 < x) :
    0 < (windowStats l w).2.2 := by
  have hne : tailN l w ≠ [] := tailN_ne_nil l w hw hlen
  have hposrec : ∀ x ∈ tailN l w, 0 < x :=
    fun x hx => hpos x (tailN_subset l w hx)
  have hmin : 0 < listMin (tailN l w) := listMin_pos _ hne hposrec
  have hmax : 0 < listMax (tailN l w) := listMax_pos _ hne hposrec
  show 0 < (listMin (tailN l w) + listMax (tailN l w)) / 2
  positivity

lemma calc_gap_inv {cr : ℚ} {rh : List ℚ} {cd : Option ℚ}
    {dh : Option (List ℚ)} {w : Nat} {g : GapData}
    (h : calculate_dollar_gap cr (some rh) cd dh w = .ok (.gap g)) :
    ∃ stats dvm cg mg ar,
      ¬ rh.length < w ∧
      (windowStats rh w).2.2 ≠ 0 ∧
      dxyPart cd dh w = .ok (stats, dvm) ∧
      gapPart cr (windowStats rh w).2.2 cd (Option.map DxyStats.mid stats)
        = .ok (cg, mg, ar) ∧
      g = ⟨((cr - (windowStats rh w).2.2) / (windowStats rh w).2.2) * 100,
           dvm, cg, mg, ar,
           ⟨cr, (windowStats rh w).2.2, (windowStats rh w).1,
            (windowStats rh w).2.1⟩, stats⟩ := by
  by_cases hlen : rh.length < w
  · simp [calculate_dollar_gap, hlen] at h
  · by_cases hmid : (windowStats rh w).2.2 = 0
    · simp [calculate_dollar_gap, hlen, hmid] at h
    · rcases hdxy : dxyPart cd dh w with e | ⟨stats, dvm⟩
      · simp [calculate_dollar_gap, hlen, hmid, hdxy] at h
      · rcases hgap : gapPart cr (windowStats rh w).2.2 cd
            (Option.map DxyStats.mid stats) with e | ⟨cg, mg, ar⟩
        · simp [calculate_dollar_gap, hlen, hmid, hdxy, hgap] at h
        · simp [calculate_dollar_gap, hlen, hmid, hdxy, hgap] at h
          exact ⟨stats, dvm, cg, mg, ar, hlen, hmid, rfl, hgap, h.symm⟩

lemma gapPart_never_ar_error (cr rm : ℚ) (cd dm : Option ℚ) :
    gapPart cr rm cd dm ≠ .error (.zeroDivision .appropriateRate) := by
  unfold gapPart
  rcases cd with _ | c
  · simp
  · by_cases hc : c ≠ 0 ∧ 0 < cr
    · obtain ⟨hc1, hc2⟩ := hc
      rcases dm with _ | d
      · simp [hc1, hc2]
      · by_cases hd : d = 0
        · simp [hc1, hc2, hd]
        · by_cases hrm : rm = 0
          · simp [hc1, hc2, hd, hrm]
          · have hmg : (d / rm) * 100 ≠ 0 :=
              mul_ne_zero (div_ne_zero hd hrm) (by norm_num)
            simp [hc1, hc2, hd, hrm, hmg]
    · simp [hc]

lemma gapPart_ok_shape (cr rm : ℚ) (cd dm : Option ℚ) (cg mg ar : Option ℚ)
    (h : gapPart cr rm cd dm = .ok (cg, mg, ar)) :
    (mg = none ∧ ar = none) ∨
    (∃ c m, cd = some c ∧ c ≠ 0 ∧ 0 < cr ∧ m ≠ 0 ∧ mg = some m ∧
      ar = some ((c / m) * 100) ∧ cg = some ((c / cr) * 100)) := by
  unfold gapPart at h
  rcases cd with _ | c
  · simp only [Except.ok.injEq, Prod.mk.injEq] at h
    exact Or.inl ⟨h.2.1.symm, h.2.2.symm⟩
  · by_cases hc : c ≠ 0 ∧ 0 < cr
    · obtain ⟨hc1, hc2⟩ := hc
      rcases dm with _ | d
      · simp only [hc1, hc2, ne_eq, not_false_eq_true, true_and, if_true,
          Except.ok.injEq, Prod.mk.injEq] at h
        exact Or.inl ⟨h.2.1.symm, h.2.2.symm⟩
      · by_cases hd : d = 0
        · simp only [hc1, hc2, hd, ne_eq, not_false_eq_true, true_and,
            if_true, Except.ok.injEq, Prod.mk.injEq] at h
          exact Or.inl ⟨h.2.1.symm, h.2.2.symm⟩
        · by_cases hrm : rm = 0
          · simp [hc1, hc2, hd, hrm] at h
          · have hmg : (d / rm) * 100 ≠ 0 :=
              mul_ne_zero (div_ne_zero hd hrm) (by norm_num)
            simp only [hc1, hc2, hd, hrm, hmg, ne_eq, not_false_eq_true,
              true_and, if_true, if_false, Except.ok.injEq, Prod.mk.injEq] at h
            exact Or.inr ⟨c, (d / rm) * 100, rfl, hc1, hc2, hmg,
              h.2.1.symm, h.2.2.symm, h.1.symm⟩
    · simp only [hc, if_false, Except.ok.injEq, Prod.mk.injEq] at h
      exact Or.inl ⟨h.2.1.symm, h.2.2.symm⟩

lemma dxyPart_error_site (cd : Option ℚ) (dh : Option (List ℚ)) (w : Nat)
    (e : PyError) (h : dxyPart cd dh w = .error e) :
    e = .zeroDivision .dxyVsMid := by
  unfold dxyPart at h
  rcases dh with _ | l
  · simp at h
  · by_cases hlen : l.length < w
    · simp [hlen] at h
    · rcases cd with _ | c
      · simp [hlen] at h
      · by_cases hc : c = 0
        · simp [hlen, hc] at h
        · by_cases hdm : (windowStats l w).2.2 = 0
          · simp [hlen, hc, hdm] at h
            exact h.symm
          · simp [hlen, hc, hdm] at h

lemma dxyPart_stats_shape (cd : Option ℚ) (dh : List ℚ) (w : Nat)
    (hlen : ¬ dh.length < w) (stats : Option DxyStats) (dvm : Option ℚ)
    (h : dxyPart cd (some dh) w = .ok (stats, dvm)) :
    stats = some ⟨cd, (windowStats dh w).2.2, (windowStats dh w).1,
      (windowStats dh w).2.1⟩ := by
  unfold dxyPart at h
  rcases cd with _ | c
  · simp only [hlen, if_false, Except.ok.injEq, Prod.mk.injEq] at h
    exact h.1.symm
  · by_cases hc : c = 0
    · subst hc
      simp only [hlen, if_false, if_true, Except.ok.injEq, Prod.mk.injEq] at h
      exact h.1.symm
    · by_cases hdm : (windowStats dh w).2.2 = 0
      · simp [hlen, hc, hdm] at h
      · simp only [hlen, hc, hdm, if_false, Except.ok.injEq, Prod.mk.injEq] at h
        exact h.1.symm

lemma dxyPart_cd_none_dvm (dh : Option (List ℚ)) (w : Nat)
    (stats : Option DxyStats) (dvm : Option ℚ)
    (h : dxyPart none dh w = .ok (stats, dvm)) : dvm = none := by
  unfold dxyPart at h
  rcases dh with _ | l
  · simp at h
    exact h.2.symm
  · by_cases hlen : l.length < w
    · simp [hlen] at h
      exact h.2.symm
    · simp [hlen] at h
      exact h.2.symm

lemma dxyPart_hist_none (cd : Option ℚ) (w : Nat) :
    dxyPart cd none w = .ok (none, none) := rfl

lemma dxyPart_short (cd : Option ℚ) (dh : List ℚ) (w : Nat)
    (h : dh.length < w) : dxyPart cd (some dh) w = .ok (none, none) := by
  unfold dxyPart
  simp [h]

lemma dxyPart_cd_zero (dh : List ℚ) (w : Nat) (hlen : ¬ dh.length < w) :
    dxyPart (some 0) (some dh) w = .ok
      (some ⟨some 0, (windowStats dh w).2.2, (windowStats dh w).1,
        (windowStats dh w).2.1⟩, none) := by
  unfold dxyPart
  simp [hlen]

/-! ### Claim theorems -/

/-- C1 (code bug): with a rate series shorter than the window, the source
does not return Python `None`: line 48 returns the truthy 5-tuple
`(None, None, None, None, None)`, and feeding it to
`get_investment_recommendation` (webapp line 299) string-indexes a tuple at
line 142, raising `TypeError` instead of producing the fixed
insufficient-data recommendation with empty evidence. -/
theorem short_series_returns_tuple_and_pipeline_raises :
    calculate_dollar_gap 1300 (some [1300]) none none 252 = .ok .noneTuple ∧
    analysis_pipeline 1300 (some [1300]) none none 252 = .error .typeError := by
  constructor
  · norm_num [calculate_dollar_gap]
  · norm_num [analysis_pipeline, calculate_dollar_gap, toGapArg,
      get_investment_recommendation]

/-- C3: the fair value (`appropriate_rate`) is `dxy_current / mid_gap_ratio
* 100` exactly when `mid_gap_ratio` is present and nonzero; when
`mid_gap_ratio` is absent or zero the fair value is absent; and the
division of line 85 can never raise `ZeroDivisionError`. -/
theorem fair_value_guarded (cr : ℚ) (rate_hist : Option (List ℚ))
    (cd : Option ℚ) (dxy_hist : Option (List ℚ)) (w : Nat) :
    calculate_dollar_gap cr rate_hist cd dxy_hist w
      ≠ .error (.zeroDivision .appropriateRate) ∧
    ∀ g, calculate_dollar_gap cr rate_hist cd dxy_hist w = .ok (.gap g) →
      ((GapData.mid_gap g = none ∨ GapData.mid_gap g = some 0) →
        GapData.appropriate_rate g = none) ∧
      ∀ a, GapData.appropriate_rate g = some a →
        ∃ c m, cd = some c ∧ GapData.mid_gap g = some m ∧ m ≠ 0 ∧
          a = (c / m) * 100 := by
  constructor
  · rcases rate_hist with _ | rh
    · simp [calculate_dollar_gap]
    · by_cases hlen : rh.length < w
      · simp [calculate_dollar_gap, hlen]
      · by_cases hmid : (windowStats rh w).2.2 = 0
        · simp [calculate_dollar_gap, hlen, hmid]
        · rcases hdxy : dxyPart cd dxy_hist w with e | ⟨stats, dvm⟩
          · have hsite := dxyPart_error_site cd dxy_hist w e hdxy
            simp [calculate_dollar_gap, hlen, hmid, hdxy, hsite]
          · rcases hgap : gapPart cr (windowStats rh w).2.2 cd
                (Option.map DxyStats.mid stats) with e | ⟨cg, mg, ar⟩
            · have hne := gapPart_never_ar_error cr (windowStats rh w).2.2 cd
                (Option.map DxyStats.mid stats)
              rw [hgap] at hne
              simp only [ne_eq, Except.error.injEq] at hne
              simp [calculate_dollar_gap, hlen, hmid, hdxy, hgap, hne]
            · simp [calculate_dollar_gap, hlen, hmid, hdxy, hgap]
  · intro g hg
    rcases rate_hist with _ | rh
    · simp [calculate_dollar_gap] at hg
    · obtain ⟨stats, dvm, cg, mg, ar, hlen, hmid, hdxy, hgap, hgeq⟩ :=
        calc_gap_inv hg
      have hmg : GapData.mid_gap g = mg := by rw [hgeq]
      have har : GapData.appropriate_rate g = ar := by rw [hgeq]
      rcases gapPart_ok_shape _ _ _ _ _ _ _ hgap with
        ⟨hmgn, harn⟩ | ⟨c, m, hcd, hc0, hcr, hm0, hmgs, hars, hcgs⟩
      · constructor
        · intro _; rw [har, harn]
        · intro a ha
          rw [har, harn] at ha
          exact absurd ha (by simp)
      · constructor
        · intro hcases
          rw [hmg, hmgs] at hcases
          rcases hcases with h1 | h1
          · exact absurd h1 (by simp)
          · simp only [Option.some.injEq] at h1
            exact absurd h1 hm0
        · intro a ha
          rw [har, hars] at ha
          simp only [Option.some.injEq] at ha
          exact ⟨c, m, hcd, by rw [hmg, hmgs], hm0, ha.symm⟩

/-- Concrete instance used by the witness of the fair-value claim. -/
def gc3 : GapData :=
  ⟨0, some 4, some 8, some (100 / 13), some 1352,
   ⟨1300, 1300, 1300, 1300⟩, some ⟨some 104, 100, 100, 100⟩⟩

/-- Witness for the fair-value claim at a concrete input. -/
theorem fair_value_guarded_witness :
    calculate_dollar_gap 1300 (some [1300]) (some 104) (some [100]) 1
      = .ok (.gap gc3) ∧
    ∃ c m, (some 104 : Option ℚ) = some c ∧ GapData.mid_gap gc3 = some m ∧
      m ≠ 0 ∧ (1352 : ℚ) = (c / m) * 100 := by
  have hcalc : calculate_dollar_gap 1300 (some [1300]) (some 104) (some [100]) 1
      = .ok (.gap gc3) := by
    norm_num [calculate_dollar_gap, dxyPart, gapPart, windowStats, tailN,
      listMin, listMax, gc3]
  exact ⟨hcalc,
    ((fair_value_guarded 1300 (some [1300]) (some 104) (some [100]) 1).2
      gc3 hcalc).2 1352 (by norm_num [gc3])⟩

/-- C5: with at least `window` observations in the rate series, `rate_stats`
is computed over exactly the last `window` observations, its mid is exactly
(min + max) / 2, `rate_vs_mid` is the stated formula, and (positive prices,
per the data model) it is negative exactly when the current rate is below
the trailing midpoint. -/
theorem rate_window_stats (cr : ℚ) (rh : List ℚ) (cd : Option ℚ)
    (dh : Option (List ℚ)) (w : Nat) (hw : 0 < w) (hlen : w ≤ rh.length)
    (hpos : ∀ x ∈ rh, 0 < x) :
    (tailN rh w).length = w ∧
    ∀ g, calculate_dollar_gap cr (some rh) cd dh w = .ok (.gap g) →
      GapData.rate_stats g =
        ⟨cr, (listMin (tailN rh w) + listMax (tailN rh w)) / 2,
         listMin (tailN rh w), listMax (tailN rh w)⟩ ∧
      (GapData.rate_stats g).mid =
        ((GapData.rate_stats g).min + (GapData.rate_stats g).max) / 2 ∧
      GapData.rate_vs_mid g =
        ((cr - (GapData.rate_stats g).mid) / (GapData.rate_stats g).mid) * 100 ∧
      (GapData.rate_vs_mid g < 0 ↔ cr < (GapData.rate_stats g).mid) := by
  refine ⟨tailN_length rh w hlen, ?_⟩
  intro g hg
  obtain ⟨stats, dvm, cg, mg, ar, hl, hm, hdxy, hgap, hgeq⟩ := calc_gap_inv hg
  have hmidpos : 0 < (windowStats rh w).2.2 := windowStats_mid_pos rh w hw hlen hpos
  subst hgeq
  refine ⟨rfl, rfl, rfl, ?_⟩
  show ((cr - (windowStats rh w).2.2) / (windowStats rh w).2.2) * 100 < 0 ↔
    cr < (windowStats rh w).2.2
  rw [div_mul_eq_mul_div, div_lt_iff₀ hmidpos, zero_mul]
  constructor
  · intro h
    nlinarith
  · intro h
    nlinarith

/-- Concrete instance used by the witness of the rate-window claim. -/
def g5 : GapData :=
  ⟨0, none, none, none, none, ⟨1300, 1300, 1250, 1350⟩, none⟩

/-- Witness for the rate-window claim at a concrete input. -/
theorem rate_window_stats_witness :
    calculate_dollar_gap 1300 (some [1250, 1350]) none none 2 = .ok (.gap g5) ∧
    (GapData.rate_vs_mid g5 < 0 ↔ (1300 : ℚ) < (GapData.rate_stats g5).mid) := by
  have hcalc : calculate_dollar_gap 1300 (some [1250, 1350]) none none 2
      = .ok (.gap g5) := by
    norm_num [calculate_dollar_gap, dxyPart, gapPart, windowStats, tailN,
      listMin, listMax, g5]
  exact ⟨hcalc,
    ((rate_window_stats 1300 [1250, 1350] none none 2 (by norm_num)
      (by norm_num) (by norm_num)).2 g5 hcalc).2.2.2⟩

lemma gapPart_some_dm (cr rm c d : ℚ) (hd : d ≠ 0) (cg mg ar : Option ℚ)
    (h : gapPart cr rm (some c) (some d) = .ok (cg, mg, ar)) :
    cg.isSome ↔ mg.isSome := by
  unfold gapPart at h
  by_cases hc : c ≠ 0 ∧ 0 < cr
  · obtain ⟨hc1, hc2⟩ := hc
    by_cases hrm : rm = 0
    · simp [hc1, hc2, hd, hrm] at h
    · have hmg : (d / rm) * 100 ≠ 0 :=
        mul_ne_zero (div_ne_zero hd hrm) (by norm_num)
      simp only [hc1, hc2, hd, hrm, hmg, ne_eq, not_false_eq_true, true_and,
        if_true, if_false, Except.ok.injEq, Prod.mk.injEq] at h
      simp [← h.1, ← h.2.1]
  · simp only [hc, if_false, Except.ok.injEq, Prod.mk.injEq] at h
    simp [← h.1, ← h.2.1]

/-- C6: when the DXY window is fully available (at least `window`
observations with positive prices, and `dxy_current` present),
`current_gap_ratio` and `mid_gap_ratio` in the result are both present or
both absent. -/
theorem gap_fields_both_or_neither (cr : ℚ) (rate_hist : Option (List ℚ))
    (c : ℚ) (dh : List ℚ) (w : Nat) (hw : 0 < w) (hlen : w ≤ dh.length)
    (hpos : ∀ x ∈ dh, 0 < x) :
    ∀ g, calculate_dollar_gap cr rate_hist (some c) (some dh) w
        = .ok (.gap g) →
      ((GapData.current_gap g).isSome ↔ (GapData.mid_gap g).isSome) := by
  intro g hg
  rcases rate_hist with _ | rh
  · simp [calculate_dollar_gap] at hg
  · obtain ⟨stats, dvm, cg, mg, ar, hl, hm, hdxy, hgap, hgeq⟩ := calc_gap_inv hg
    have hdlen : ¬ dh.length < w := Nat.not_lt.mpr hlen
    have hstats := dxyPart_stats_shape (some c) dh w hdlen stats dvm hdxy
    have hdm : 0 < (windowStats dh w).2.2 := windowStats_mid_pos dh w hw hlen hpos
    subst hstats
    subst hgeq
    exact gapPart_some_dm cr _ c _ (ne_of_gt hdm) cg mg ar hgap

/-- Concrete instance used by the witness of the both-or-neither claim. -/
def g6 : GapData :=
  ⟨0, some 4, some 8, some (100 / 13), some 1352,
   ⟨1300, 1300, 1250, 1350⟩, some ⟨some 104, 100, 90, 110⟩⟩

/-- Witness for the both-or-neither claim at a concrete input. -/
theorem gap_fields_both_or_neither_witness :
    calculate_dollar_gap 1300 (some [1250, 1350]) (some 104) (some [90, 110]) 2
      = .ok (.gap g6) ∧
    ((GapData.current_gap g6).isSome ↔ (GapData.mid_gap g6).isSome) := by
  have hcalc : calculate_dollar_gap 1300 (some [1250, 1350]) (some 104)
      (some [90, 110]) 2 = .ok (.gap g6) := by
    norm_num [calculate_dollar_gap, dxyPart, gapPart, windowStats, tailN,
      listMin, listMax, g6]
  exact ⟨hcalc,
    gap_fields_both_or_neither 1300 (some [1250, 1350]) 104 [90, 110] 2
      (by norm_num) (by norm_num) (by norm_num) g6 hcalc⟩

/-- C10: with both series at least `window` long (positive rate prices) and
`dxy_current` exactly 0, the index value is treated as missing: Python
truthiness makes `if current_dxy:` false, so `dxy_vs_mid`,
`current_gap_ratio`, `mid_gap_ratio` and the fair value are all absent,
while `dxy_stats` is still produced. -/
theorem dxy_zero_treated_as_missing (cr : ℚ) (rh dh : List ℚ) (w : Nat)
    (hw : 0 < w) (hrlen : w ≤ rh.length) (hdlen : w ≤ dh.length)
    (hrpos : ∀ x ∈ rh, 0 < x) (_hcr : 0 < cr) :
    ∃ g, calculate_dollar_gap cr (some rh) (some 0) (some dh) w
        = .ok (.gap g) ∧
      GapData.dxy_vs_mid g = none ∧ GapData.current_gap g = none ∧
      GapData.mid_gap g = none ∧ GapData.appropriate_rate g = none ∧
      GapData.dxy_stats g ≠ none := by
  have hlen' : ¬ rh.length < w := Nat.not_lt.mpr hrlen
  have hdlen' : ¬ dh.length < w := Nat.not_lt.mpr hdlen
  have hrmne : (windowStats rh w).2.2 ≠ 0 :=
    ne_of_gt (windowStats_mid_pos rh w hw hrlen hrpos)
  have hdxy := dxyPart_cd_zero dh w hdlen'
  have hgap : gapPart cr (windowStats rh w).2.2 (some 0)
      (some (windowStats dh w).2.2) = .ok (none, none, none) := by
    unfold gapPart
    simp
  refine ⟨⟨((cr - (windowStats rh w).2.2) / (windowStats rh w).2.2) * 100,
    none, none, none, none,
    ⟨cr, (windowStats rh w).2.2, (windowStats rh w).1, (windowStats rh w).2.1⟩,
    some ⟨some 0, (windowStats dh w).2.2, (windowStats dh w).1,
      (windowStats dh w).2.1⟩⟩, ?_, rfl, rfl, rfl, rfl, by simp⟩
  simp [calculate_dollar_gap, hlen', hrmne, hdxy, hgap]

/-- Witness for the zero-DXY claim at a concrete input. -/
theorem dxy_zero_treated_as_missing_witness :
    ∃ g, calculate_dollar_gap 1300 (some [1250, 1350]) (some 0)
        (some [90, 110]) 2 = .ok (.gap g) ∧
      GapData.dxy_vs_mid g = none ∧ GapData.current_gap g = none ∧
      GapData.mid_gap g = none ∧ GapData.appropriate_rate g = none ∧
      GapData.dxy_stats g ≠ none :=
  dxy_zero_treated_as_missing 1300 [1250, 1350] [90, 110] 2 (by norm_num)
    (by norm_num) (by norm_num) (by norm_num) (by norm_num)

/-! ### Recommendation-engine lemmas -/

lemma cond1_facts (g : GapData) :
    (cond1Eval g).1.length = (cond1Eval g).2.2 ∧
    (cond1Eval g).2.1 ≤ (cond1Eval g).2.2 ∧ (cond1Eval g).2.2 = 1 := by
  unfold cond1Eval
  split <;> simp

lemma cond2_facts (g : GapData) :
    (cond2Eval g).1.length = (cond2Eval g).2.2 ∧
    (cond2Eval g).2.1 ≤ (cond2Eval g).2.2 ∧
    (cond2Eval g).2.2 = if (GapData.dxy_vs_mid g).isSome then 1 else 0 := by
  unfold cond2Eval
  rcases GapData.dxy_vs_mid g with _ | d
  · simp
  · by_cases hd : d < 0 <;> simp [hd]

lemma cond3_facts (g : GapData) :
    (cond3Eval g).1.length = (cond3Eval g).2.2 ∧
    (cond3Eval g).2.1 ≤ (cond3Eval g).2.2 ∧
    (cond3Eval g).2.2 = if (GapData.current_gap g).isSome ∧
      (GapData.mid_gap g).isSome then 1 else 0 := by
  unfold cond3Eval
  rcases GapData.current_gap g with _ | c <;> rcases GapData.mid_gap g with _ | m
  · simp
  · simp
  · simp
  · by_cases hcm : 0 < c - m <;> simp [hcm]

lemma cond4_facts (g : GapData) (l : List (Nat × Bool)) (m t : Nat)
    (h : cond4Eval g = .ok (l, m, t)) :
    l.length = t ∧ m ≤ t ∧
    t = if (GapData.appropriate_rate g).isSome then 1 else 0 := by
  unfold cond4Eval at h
  rcases har : GapData.appropriate_rate g with _ | a
  · rw [har] at h
    simp only [Except.ok.injEq, Prod.mk.injEq] at h
    simp [← h.1, ← h.2.1, ← h.2.2, har]
  · rw [har] at h
    by_cases ha : a = 0
    · simp [ha] at h
    · by_cases hlt : (GapData.rate_stats g).current - a < 0 <;>
        · simp only [ha, hlt, if_true, if_false, Except.ok.injEq,
            Prod.mk.injEq] at h
          simp [← h.1, ← h.2.1, ← h.2.2, har]

lemma get_rec_inv (g : GapData) (r : Recommendation)
    (h : get_investment_recommendation (.pydict g) = .ok r) :
    ∃ c4, cond4Eval g = .ok c4 ∧
      r = ⟨decideLabel
            ((cond1Eval g).2.1 + (cond2Eval g).2.1 + (cond3Eval g).2.1 + c4.2.1)
            ((cond1Eval g).2.2 + (cond2Eval g).2.2 + (cond3Eval g).2.2 + c4.2.2),
          (cond1Eval g).1 ++ (cond2Eval g).1 ++ (cond3Eval g).1 ++ c4.1,
          (cond1Eval g).2.1 + (cond2Eval g).2.1 + (cond3Eval g).2.1 + c4.2.1⟩ := by
  simp only [get_investment_recommendation] at h
  rcases hc4 : cond4Eval g with e | c4
  · rw [hc4] at h
    simp at h
  · rw [hc4] at h
    simp only [Except.ok.injEq] at h
    exact ⟨c4, rfl, h.symm⟩

/-- C4: every recommendation the engine actually returns satisfies
`conditions_met ≤ conditions_total ≤ 4`, where `conditions_total` — a local
variable of the source that is returned only implicitly, as the length of
the evidence list (exactly one entry is appended per evaluated condition) —
counts exactly the conditions whose required inputs are present. -/
theorem recommendation_counters (a : GapArg) (r : Recommendation)
    (h : get_investment_recommendation a = .ok r) :
    Recommendation.conditions_met r ≤ (Recommendation.recommendations r).length ∧
    (Recommendation.recommendations r).length ≤ 4 ∧
    ∀ g, a = .pydict g →
      (Recommendation.recommendations r).length =
        1 + (if (GapData.dxy_vs_mid g).isSome then 1 else 0)
          + (if (GapData.current_gap g).isSome ∧
              (GapData.mid_gap g).isSome then 1 else 0)
          + (if (GapData.appropriate_rate g).isSome then 1 else 0) := by
  rcases a with _ | _ | g
  · simp only [get_investment_recommendation, Except.ok.injEq] at h
    subst h
    refine ⟨by simp, by simp, ?_⟩
    intro g hg
    exact absurd hg (by simp)
  · simp [get_investment_recommendation] at h
  · obtain ⟨c4, hc4, hr⟩ := get_rec_inv g r h
    obtain ⟨hl1, hm1, ht1⟩ := cond1_facts g
    obtain ⟨hl2, hm2, ht2⟩ := cond2_facts g
    obtain ⟨hl3, hm3, ht3⟩ := cond3_facts g
    obtain ⟨hl4, hm4, ht4⟩ := cond4_facts g c4.1 c4.2.1 c4.2.2 (by
      rw [hc4])
    have hlen : (Recommendation.recommendations r).length =
        (cond1Eval g).2.2 + (cond2Eval g).2.2 + (cond3Eval g).2.2 + c4.2.2 := by
      rw [hr]
      simp only [List.length_append, hl1, hl2, hl3, hl4]
    constructor
    · rw [hr] at hlen ⊢
      simp only at hlen ⊢
      omega
    constructor
    · rw [hlen, ht1, ht2, ht3, ht4]
      split <;> split <;> split <;> simp
    · intro g2 hg2
      simp only [GapArg.pydict.injEq] at hg2
      subst hg2
      rw [hlen, ht1, ht2, ht3, ht4]

lemma decideLabel_eq_specDecision (met total : Nat) :
    decideLabel met total = specDecision met total := by
  unfold decideLabel specDecision
  rcases Nat.eq_zero_or_pos total with h0 | hpos
  · simp [h0]
  · have hne : total ≠ 0 := Nat.pos_iff_ne_zero.mp hpos
    have ht : (0 : ℚ) < (total : ℚ) := by exact_mod_cast hpos
    have e : ∀ c : ℚ, (c ≤ (met : ℚ) / (total : ℚ)) ↔
        ((total : ℚ) * c ≤ (met : ℚ)) := by
      intro c
      rw [le_div_iff₀ ht, mul_comm]
    rw [if_neg hne, if_neg hne]
    simp only [e]

/-- C2: the decision label the engine returns is the pure function
`decideLabel` of the pair (conditions_met, conditions_total) — with
conditions_total carried as the evidence-list length — `decideLabel` agrees
with the spec's ratio-ordered threshold table (`specDecision`, tested in
the fixed order: total = 0, met = total, ≥ 3/4, ≥ 1/2, ≥ 1/4, otherwise),
and at (3, 4) it yields buy-consider. -/
theorem decision_label_thresholds :
    (∀ g r, get_investment_recommendation (GapArg.pydict g) = .ok r →
      Recommendation.decision r =
        decideLabel (Recommendation.conditions_met r)
          (Recommendation.recommendations r).length) ∧
    (∀ met total, decideLabel met total = specDecision met total) ∧
    decideLabel 3 4 = Decision.buyConsider := by
  refine ⟨?_, decideLabel_eq_specDecision, by norm_num [decideLabel]⟩
  intro g r h
  obtain ⟨c4, hc4, hr⟩ := get_rec_inv g r h
  obtain ⟨hl1, _, _⟩ := cond1_facts g
  obtain ⟨hl2, _, _⟩ := cond2_facts g
  obtain ⟨hl3, _, _⟩ := cond3_facts g
  obtain ⟨hl4, _, _⟩ := cond4_facts g c4.1 c4.2.1 c4.2.2 (by rw [hc4])
  rw [hr]
  simp only [List.length_append, hl1, hl2, hl3, hl4]

/-- Concrete full-data dictionary used by the recommendation witnesses. -/
def gAll : GapData :=
  ⟨-1, some (-2), some 110, some 100, some 1400,
   ⟨1300, 1300, 1250, 1350⟩, some ⟨some 104, 100, 90, 110⟩⟩

/-- Concrete recommendation produced on `gAll`. -/
def rAll : Recommendation :=
  ⟨.strongBuy, [(1, true), (2, true), (3, true), (4, true)], 4⟩

/-- Witness for the decision-threshold claim at a concrete input. -/
theorem decision_label_thresholds_witness :
    get_investment_recommendation (GapArg.pydict gAll) = .ok rAll ∧
    Recommendation.decision rAll =
      decideLabel (Recommendation.conditions_met rAll)
        (Recommendation.recommendations rAll).length := by
  have h : get_investment_recommendation (GapArg.pydict gAll) = .ok rAll := by
    norm_num [get_investment_recommendation, cond1Eval, cond2Eval, cond3Eval,
      cond4Eval, decideLabel, gAll, rAll]
  exact ⟨h, decision_label_thresholds.1 gAll rAll h⟩

/-- Witness for the counters claim at a concrete input. -/
theorem recommendation_counters_witness :
    get_investment_recommendation (GapArg.pydict gAll) = .ok rAll ∧
    Recommendation.conditions_met rAll ≤
      (Recommendation.recommendations rAll).length ∧
    (Recommendation.recommendations rAll).length ≤ 4 := by
  have h : get_investment_recommendation (GapArg.pydict gAll) = .ok rAll := by
    norm_num [get_investment_recommendation, cond1Eval, cond2Eval, cond3Eval,
      cond4Eval, decideLabel, gAll, rAll]
  exact ⟨h, (recommendation_counters (GapArg.pydict gAll) rAll h).1,
    (recommendation_counters (GapArg.pydict gAll) rAll h).2.1⟩

lemma gapPart_dm_none (cr rm : ℚ) (cd : Option ℚ) :
    ∃ cg, gapPart cr rm cd none = .ok (cg, none, none) := by
  unfold gapPart
  rcases cd with _ | c
  · exact ⟨none, rfl⟩
  · by_cases hc : c ≠ 0 ∧ 0 < cr
    · exact ⟨some ((c / cr) * 100), by simp [hc.1, hc.2]⟩
    · exact ⟨none, by simp [hc]⟩

lemma get_rec_none_fields (g : GapData) (h2 : GapData.dxy_vs_mid g = none)
    (h3 : GapData.current_gap g = none)
    (h4 : GapData.appropriate_rate g = none) :
    get_investment_recommendation (.pydict g) =
      .ok ⟨decideLabel (cond1Eval g).2.1 1, (cond1Eval g).1,
           (cond1Eval g).2.1⟩ := by
  have hc4 : cond4Eval g = .ok ([], 0, 0) := by
    unfold cond4Eval
    rw [h4]
  have hc2 : cond2Eval g = ([], 0, 0) := by
    unfold cond2Eval
    rw [h2]
  have hc3 : cond3Eval g = ([], 0, 0) := by
    unfold cond3Eval
    rw [h3]
  have ht1 := (cond1_facts g).2.2
  simp only [get_investment_recommendation, hc4, hc2, hc3, List.append_nil,
    Nat.add_zero, ht1]

/-- Concrete instance used by the short-DXY counterexample. -/
def g7 : GapData :=
  ⟨0, none, some (100 / 13), none, none, ⟨1300, 1300, 1250, 1350⟩, none⟩

/-- C7 counterexample: a DXY series shorter than the window does NOT leave
every DXY-dependent field absent: with `dxy_current` present and nonzero
and a positive rate, `current_gap_ratio` (which does not use the window) is
still computed. -/
theorem dxy_short_still_has_current_gap :
    calculate_dollar_gap 1300 (some [1250, 1350]) (some 100) (some []) 2
      = .ok (.gap g7) ∧ GapData.current_gap g7 = some (100 / 13) := by
  constructor
  · norm_num [calculate_dollar_gap, dxyPart, gapPart, windowStats, tailN,
      listMin, listMax, g7]
  · rfl

/-- C7 (amended): with enough rate data and a DXY series shorter than the
window, the calculator still returns a result dictionary (no error) in
which `dxy_stats`, `dxy_vs_mid`, `mid_gap_ratio` and the fair value are
absent — but `current_gap_ratio` may still be present, since it does not
use the window; and with `dxy_current` absent, all four DXY-dependent
fields are absent and the recommendation evaluates at most condition 1
(`conditions_total ≤ 1`). -/
theorem dxy_degradation_amended :
    (∀ (cr : ℚ) (rh dh : List ℚ) (cd : Option ℚ) (w : Nat), 0 < w →
      w ≤ rh.length → (∀ x ∈ rh, 0 < x) → dh.length < w →
      ∃ g, calculate_dollar_gap cr (some rh) cd (some dh) w = .ok (.gap g) ∧
        GapData.dxy_stats g = none ∧ GapData.dxy_vs_mid g = none ∧
        GapData.mid_gap g = none ∧ GapData.appropriate_rate g = none) ∧
    (∀ (cr : ℚ) (rh : List ℚ) (dh : Option (List ℚ)) (w : Nat) (g : GapData),
      calculate_dollar_gap cr (some rh) none dh w = .ok (.gap g) →
      GapData.dxy_vs_mid g = none ∧ GapData.current_gap g = none ∧
      GapData.mid_gap g = none ∧ GapData.appropriate_rate g = none ∧
      ∃ r, get_investment_recommendation (.pydict g) = .ok r ∧
        (Recommendation.recommendations r).length ≤ 1) := by
  constructor
  · intro cr rh dh cd w hw hrlen hrpos hshort
    have hlen' : ¬ rh.length < w := Nat.not_lt.mpr hrlen
    have hrmne : (windowStats rh w).2.2 ≠ 0 :=
      ne_of_gt (windowStats_mid_pos rh w hw hrlen hrpos)
    have hdxy := dxyPart_short cd dh w hshort
    obtain ⟨cg, hgap⟩ := gapPart_dm_none cr (windowStats rh w).2.2 cd
    refine ⟨⟨((cr - (windowStats rh w).2.2) / (windowStats rh w).2.2) * 100,
      none, cg, none, none,
      ⟨cr, (windowStats rh w).2.2, (windowStats rh w).1,
       (windowStats rh w).2.1⟩, none⟩, ?_, rfl, rfl, rfl, rfl⟩
    simp [calculate_dollar_gap, hlen', hrmne, hdxy, hgap]
  · intro cr rh dh w g hg
    obtain ⟨stats, dvm, cg, mg, ar, hl, hm, hdxy, hgap, hgeq⟩ := calc_gap_inv hg
    have hdvm : dvm = none := dxyPart_cd_none_dvm dh w stats dvm hdxy
    have hcgs : cg = none ∧ mg = none ∧ ar = none := by
      unfold gapPart at hgap
      simp only [Except.ok.injEq, Prod.mk.injEq] at hgap
      exact ⟨hgap.1.symm, hgap.2.1.symm, hgap.2.2.symm⟩
    have h2 : GapData.dxy_vs_mid g = none := by rw [hgeq]; exact hdvm
    have h3 : GapData.current_gap g = none := by rw [hgeq]; exact hcgs.1
    have hmg : GapData.mid_gap g = none := by rw [hgeq]; exact hcgs.2.1
    have h4 : GapData.appropriate_rate g = none := by rw [hgeq]; exact hcgs.2.2
    refine ⟨h2, h3, hmg, h4, ?_⟩
    refine ⟨_, get_rec_none_fields g h2 h3 h4, ?_⟩
    have := (cond1_facts g).1
    have ht1 := (cond1_facts g).2.2
    simp only [this, ht1]
    omega

/-- Witness for the amended degradation claim at concrete inputs. -/
theorem dxy_degradation_amended_witness :
    (∃ g, calculate_dollar_gap 1300 (some [1250, 1350]) (some 100)
        (some []) 2 = .ok (.gap g) ∧
      GapData.dxy_stats g = none ∧ GapData.dxy_vs_mid g = none ∧
      GapData.mid_gap g = none ∧ GapData.appropriate_rate g = none) ∧
    (GapData.dxy_vs_mid g5 = none ∧ GapData.current_gap g5 = none ∧
     GapData.mid_gap g5 = none ∧ GapData.appropriate_rate g5 = none ∧
     ∃ r, get_investment_recommendation (.pydict g5) = .ok r ∧
       (Recommendation.recommendations r).length ≤ 1) := by
  have hcalc : calculate_dollar_gap 1300 (some [1250, 1350]) none none 2
      = .ok (.gap g5) := by
    norm_num [calculate_dollar_gap, dxyPart, gapPart, windowStats, tailN,
      listMin, listMax, g5]
  exact ⟨dxy_degradation_amended.1 1300 [1250, 1350] [] (some 100) 2
      (by norm_num) (by norm_num) (by norm_num) (by norm_num),
    dxy_degradation_amended.2 1300 [1250, 1350] none 2 g5 hcalc⟩

lemma tailN_tailN (l : List ℚ) (a b : Nat) (hb : b ≤ a) (ha : a ≤ l.length) :
    tailN (tailN l a) b = tailN l b := by
  unfold tailN
  rw [List.length_drop, List.drop_drop]
  congr 1
  omega

lemma getLast?_tailN (l : List ℚ) (w : Nat) (hw : 0 < w) (h : w ≤ l.length) :
    (tailN l w).getLast? = l.getLast? := by
  have hne : tailN l w ≠ [] := tailN_ne_nil l w hw h
  conv_rhs => rw [← List.take_append_drop (l.length - w) l]
  exact (List.getLast?_append_of_ne_nil _ hne).symm

/-- C8: the trend classifier is absent on fewer than 20 observations;
otherwise the medium-term label is up exactly when the latest value
strictly exceeds the mean of the last 20 observations, and the short-term
label is up exactly when it strictly exceeds the mean of the last 5
observations; equality classifies as down. -/
theorem trend_classifier_spec :
    analyze_dxy_trend none = none ∧
    ∀ dh : List ℚ,
      (dh.length < 20 → analyze_dxy_trend (some dh) = none) ∧
      (20 ≤ dh.length →
        analyze_dxy_trend (some dh) =
          some ((if listMean (tailN dh 20) < (dh.getLast?).getD 0
                 then .up else .down),
                (if listMean (tailN dh 5) < (dh.getLast?).getD 0
                 then .up else .down))) := by
  refine ⟨rfl, ?_⟩
  intro dh
  constructor
  · intro h
    simp [analyze_dxy_trend, h]
  · intro h
    have h' : ¬ dh.length < 20 := Nat.not_lt.mpr h
    have hlast : ((tailN dh 20).getLast?).getD 0 = (dh.getLast?).getD 0 := by
      rw [getLast?_tailN dh 20 (by norm_num) h]
    have h5 : tailN (tailN dh 20) 5 = tailN dh 5 :=
      tailN_tailN dh 20 5 (by norm_num) h
    simp only [analyze_dxy_trend, h', if_false, hlast, h5]

/-- Concrete 20-observation series used by the trend witness. -/
def dh20 : List ℚ :=
  [1, 1, 1, 1, 1, 1, 1, 1, 1, 1, 1, 1, 1, 1, 1, 1, 1, 1, 1, 21]

/-- Witness for the trend-classifier claim at a concrete input. -/
theorem trend_classifier_spec_witness :
    analyze_dxy_trend (some dh20) = some (Trend.up, Trend.up) := by
  have h := (trend_classifier_spec.2 dh20).2 (by norm_num [dh20])
  rw [h]
  norm_num [dh20, listMean, tailN, List.getLast?]

lemma scenarioRows_ok (cr : ℚ) (d : InvestmentDetails) :
    ∀ ps : List Int, (∀ p ∈ ps, cr * (1 + (p : ℚ) / 100) ≠ 0) →
    ∃ rows, scenarioRows cr d ps = .ok rows ∧
      rows.map ScenarioRow.change_pct = ps ∧
      ∀ row ∈ rows,
        ScenarioRow.new_rate row =
          cr * (1 + (ScenarioRow.change_pct row : ℚ) / 100) ∧
        ScenarioRow.new_dollar row =
          InvestmentDetails.net_investment d / ScenarioRow.new_rate row ∧
        ScenarioRow.profit_loss row =
          (ScenarioRow.new_dollar row - InvestmentDetails.net_dollar d) * cr := by
  intro ps
  induction ps with
  | nil => exact fun _ => ⟨[], rfl, rfl, by simp⟩
  | cons p ps ih =>
    intro hnz
    obtain ⟨rows, hrows, hmap, hall⟩ :=
      ih (fun q hq => hnz q (List.mem_cons_of_mem _ hq))
    have hp := hnz p (List.mem_cons_self _ _)
    refine ⟨⟨p, cr * (1 + (p : ℚ) / 100),
      InvestmentDetails.net_investment d / (cr * (1 + (p : ℚ) / 100)),
      (InvestmentDetails.net_investment d / (cr * (1 + (p : ℚ) / 100)) -
        InvestmentDetails.net_dollar d) * cr⟩ :: rows, ?_, ?_, ?_⟩
    · unfold scenarioRows scenarioRow
      simp [hp, hrows]
    · simp [hmap]
    · intro row hrow
      rcases List.mem_cons.mp hrow with h | h
      · subst h
        exact ⟨rfl, rfl, rfl⟩
      · exact hall row h

/-- C9: for positive amount and rate, the sizing computation produces the
stated fee, net amount and quantities, and the scenario table walks the
fixed perturbation list in order with the stated projected rate, projected
quantity and profit/loss (valued at the original rate); the 0% row
reproduces the rate exactly and has zero profit/loss. -/
theorem investment_sizing_spec (amt rate : ℚ) (_hamt : 0 < amt)
    (hrate : 0 < rate) :
    ∃ d, calculate_investment_details amt (some rate) = .ok (some d) ∧
      InvestmentDetails.fee d = amt * (0.002 : ℚ) ∧
      InvestmentDetails.net_investment d = amt - InvestmentDetails.fee d ∧
      InvestmentDetails.dollar_amount d = amt / rate ∧
      InvestmentDetails.net_dollar d = InvestmentDetails.net_investment d / rate ∧
      ∃ rows, scenario_table rate d = .ok rows ∧
        rows.map ScenarioRow.change_pct = scenarios ∧
        (∀ row ∈ rows,
          ScenarioRow.new_rate row =
            rate * (1 + (ScenarioRow.change_pct row : ℚ) / 100) ∧
          ScenarioRow.new_dollar row =
            InvestmentDetails.net_investment d / ScenarioRow.new_rate row ∧
          ScenarioRow.profit_loss row =
            (ScenarioRow.new_dollar row - InvestmentDetails.net_dollar d) * rate) ∧
        ∃ row0 ∈ rows, ScenarioRow.change_pct row0 = 0 ∧
          ScenarioRow.new_rate row0 = rate ∧
          ScenarioRow.profit_loss row0 = 0 := by
  have hrne : rate ≠ 0 := ne_of_gt hrate
  refine ⟨⟨amt, rate, amt / rate, amt * (2 / 1000), amt - amt * (2 / 1000),
    (amt - amt * (2 / 1000)) / rate, (2 / 1000) * 100⟩, ?_, by norm_num,
    rfl, rfl, rfl, ?_⟩
  · unfold calculate_investment_details
    simp [hrne]
  · have hnz : ∀ p ∈ scenarios, rate * (1 + (p : ℚ) / 100) ≠ 0 := by
      intro p hp
      fin_cases hp <;> exact mul_ne_zero hrne (by norm_num)
    obtain ⟨rows, hrows, hmap, hall⟩ := scenarioRows_ok rate _ scenarios hnz
    refine ⟨rows, hrows, hmap, hall, ?_⟩
    have h0mem : (0 : Int) ∈ rows.map ScenarioRow.change_pct := by
      rw [hmap]
      norm_num [scenarios]
    obtain ⟨row0, hrow0, hc0⟩ := List.mem_map.mp h0mem
    obtain ⟨hnr, hnd, hpl⟩ := hall row0 hrow0
    have hc0q : ((ScenarioRow.change_pct row0 : ℚ)) = 0 := by
      rw [hc0]
      norm_num
    have hnr' : ScenarioRow.new_rate row0 = rate := by
      rw [hnr, hc0q]
      ring
    refine ⟨row0, hrow0, hc0, hnr', ?_⟩
    rw [hpl, hnd, hnr']
    show ((amt - amt * (2 / 1000)) / rate -
      (amt - amt * (2 / 1000)) / rate) * rate = 0
    ring

/-- Witness for the sizing claim at the spec's own example
(1,000,000 at rate 1300). -/
theorem investment_sizing_spec_witness :
    calculate_investment_details 1000000 (some 1300)
      = .ok (some ⟨1000000, 1300, 10000 / 13, 2000, 998000, 9980 / 13, 1 / 5⟩) ∧
    ∃ d, calculate_investment_details 1000000 (some 1300) = .ok (some d) ∧
      InvestmentDetails.fee d = 1000000 * (0.002 : ℚ) ∧
      ∃ rows, scenario_table 1300 d = .ok rows ∧
        ∃ row0 ∈ rows, ScenarioRow.change_pct row0 = 0 ∧
          ScenarioRow.new_rate row0 = 1300 ∧
          ScenarioRow.profit_loss row0 = 0 := by
  refine ⟨by norm_num [calculate_investment_details], ?_⟩
  obtain ⟨d, h1, h2, _, _, _, rows, hr, _, _, hrow0⟩ :=
    investment_sizing_spec 1000000 1300 (by norm_num) (by norm_num)
  exact ⟨d, h1, h2, rows, hr, hrow0⟩
